import Mathlib

/-!
Verification of the NewICD3 interface layer (`lib_drvintf`) against its
natural-language specification.

The repository ships the public headers (`interface_layer.h`,
`device_driver.h`, `logging.h`) and the test / example driver `main.c`.
The implementation translation unit of the interface layer itself
(registry, shadow memory, trap handler, transport, interrupt router) is
not part of the source tree, so those operations are modelled from the
specification, faithful to the types declared in `interface_layer.h`.
All machine integers are `Nat` with explicit truncation modulo `2 ^ 32`
or `2 ^ 64` where the C types demand it.
-/

namespace DrvIntf

/-- Truncation to the C `uint32_t` type. -/
def u32 (n : Nat) : Nat := n % 2 ^ 32

/-- Host page size of the supported platform (x86-64 Linux, 4 KiB). -/
def pageSize : Nat := 4096

/-- Embedding of `device_info_t` (interface_layer.h:58-64): `device_id`,
`base_address` and `size` are all declared `uint32_t` in the source; the
`mapped_memory` and `socket_fd` handles are opaque resources and are not
modelled. -/
structure DeviceInfo where
  device_id : Nat
  base_address : Nat
  size : Nat
deriving DecidableEq

/-- Registration error kinds named by the spec (sections 4.B and 7). -/
inductive RegError
  | OVERLAP
  | ALIGN
  | UNKNOWN
deriving DecidableEq

/-- The device registry: the list of currently registered devices. -/
abbrev Registry := List DeviceInfo

/-- Nonempty intersection of the half-open ranges `[b1, b1+s1)` and
`[b2, b2+s2)`. -/
def rangesIntersect (b1 s1 b2 s2 : Nat) : Bool :=
  decide (max b1 b2 < min (b1 + s1) (b2 + s2))

/-- Modelled from the spec: the implementation of `register_device`
(declared at interface_layer.h:71 with `uint32_t` id, base and size) is
not under `src/`; per spec section 4.B the registry insert fails with
`OVERLAP` if `[base, base+size)` intersects any registered range and with
`ALIGN` if base or size is not page aligned, and on failure the registry
is left unchanged.  Arguments are truncated to the declared `uint32_t`
parameter types. -/
def register_device (st : Registry) (id base size : Nat) :
    Option RegError × Registry :=
  let b := u32 base
  let s := u32 size
  if st.any (fun d => rangesIntersect b s d.base_address d.size) then
    (some RegError.OVERLAP, st)
  else if b % pageSize = 0 ∧ s % pageSize = 0 then
    (none, ⟨u32 id, b, s⟩ :: st)
  else
    (some RegError.ALIGN, st)

/-- Modelled from the spec: `unregister_device` (interface_layer.h:72);
per spec section 4.B removal is by device id and reports `UNKNOWN` when
no device with that id is registered. -/
def unregister_device (st : Registry) (id : Nat) :
    Option RegError × Registry :=
  if st.any (fun d => d.device_id == u32 id) then
    (none, st.filter (fun d => d.device_id != u32 id))
  else
    (some RegError.UNKNOWN, st)

/-- Modelled from the spec: registry lookup (spec section 4.B) returning
the covering device and the offset `addr - base`. -/
def lookupDevice (st : Registry) (addr : Nat) : Option (DeviceInfo × Nat) :=
  match st.find? (fun d =>
      decide (d.base_address ≤ addr) && decide (addr < d.base_address + d.size)) with
  | some d => some (d, addr - d.base_address)
  | none => none

/-- Byte-addressed model-side memory, as an association list from address
to byte (latest binding wins); absent addresses read as zero. -/
abbrev Mem := List (Nat × Nat)

/-- Read one byte of model memory. -/
def readByte (m : Mem) (a : Nat) : Nat := ((m.lookup a).getD 0) % 256

/-- Write one byte of model memory. -/
def writeByte (m : Mem) (a v : Nat) : Mem := (a, v % 256) :: m

/-- Read `w` bytes little-endian starting at `a`. -/
def readBytesLE (m : Mem) (a : Nat) : Nat → Nat
  | 0 => 0
  | Nat.succ w => readByte m a + 256 * readBytesLE m (a + 1) w

/-- Write the `w` low bytes of `v` little-endian starting at `a`. -/
def writeBytesLE (m : Mem) (a v : Nat) : Nat → Mem
  | 0 => m
  | Nat.succ w => writeBytesLE (writeByte m a v) (a + 1) (v / 256) w

/-- Embedding of `protocol_command_t` (interface_layer.h:33-39). -/
inductive ProtocolCommand
  | CMD_READ
  | CMD_WRITE
  | CMD_INTERRUPT
  | CMD_INIT
  | CMD_DEINIT
deriving DecidableEq

/-- Numeric values of `protocol_command_t` (interface_layer.h:33-39). -/
def commandCode : ProtocolCommand → Nat
  | ProtocolCommand.CMD_READ => 1
  | ProtocolCommand.CMD_WRITE => 2
  | ProtocolCommand.CMD_INTERRUPT => 3
  | ProtocolCommand.CMD_INIT => 4
  | ProtocolCommand.CMD_DEINIT => 5

/-- Modelled from the spec: `send_message_to_model`
(interface_layer.h:83) against an echo device model (spec section 8,
scenario S1: the model echoes writes): `READ` returns the bytes stored at
the address, `WRITE` stores the data bytes, both little-endian. -/
def send_message_to_model (m : Mem) (cmd : ProtocolCommand)
    (addr len data : Nat) : Nat × Mem :=
  match cmd with
  | ProtocolCommand.CMD_READ => (readBytesLE m addr len, m)
  | ProtocolCommand.CMD_WRITE => (0, writeBytesLE m addr data len)
  | _ => (0, m)

/-- Modelled from the spec: `read_register` (interface_layer.h:75, return
type `uint32_t`); per spec section 4.G it looks the device up and goes
straight to the transport; the response value is truncated to the
declared `uint32_t` return type.  `none` models an unregistered
address. -/
def read_register (st : Registry) (m : Mem) (address size : Nat) :
    Option (Nat × Mem) :=
  match lookupDevice st (u32 address) with
  | none => none
  | some (d, off) =>
      let r := send_message_to_model m ProtocolCommand.CMD_READ
        (d.base_address + off) (u32 size) 0
      some (u32 r.1, r.2)

/-- Modelled from the spec: `write_register` (interface_layer.h:76, data
parameter of type `uint32_t`, `int` result with 0 on success); per spec
section 4.G it looks the device up and goes straight to the transport. -/
def write_register (st : Registry) (m : Mem) (address data size : Nat) :
    Option (Nat × Mem) :=
  match lookupDevice st (u32 address) with
  | none => none
  | some (d, off) =>
      let r := send_message_to_model m ProtocolCommand.CMD_WRITE
        (d.base_address + off) (u32 size) (u32 data)
      some (0, r.2)

/-- Architectural general-purpose register file, indexed by slot. -/
abbrev RegFile := List Nat

/-- Read a register slot. -/
def regGet (regs : RegFile) (i : Nat) : Nat := regs.getD i 0

/-- Write a register slot. -/
def regSet (regs : RegFile) (i v : Nat) : RegFile := regs.set i v

/-- Sub-width register writeback of the supported 64-bit ISA (spec
section 4.D): 1- and 2-byte destinations preserve the upper register
bits, 4-byte destinations zero-extend to 64 bits, 8-byte destinations
replace the register. -/
def writeback (old w v : Nat) : Nat :=
  if w = 1 then (old / 2 ^ 8) * 2 ^ 8 + v % 2 ^ 8
  else if w = 2 then (old / 2 ^ 16) * 2 ^ 16 + v % 2 ^ 16
  else if w = 4 then v % 2 ^ 32
  else if w = 8 then v % 2 ^ 64
  else old

/-- Modelled from the spec: the trap-handler LOAD path (spec section 4.E,
steps 2, 4 and 6): look the faulting address up in the registry, send a
`READ` transaction of the decoded width, write the response into the
decoded register slot honoring sub-width semantics, and advance the pc
past the faulting instruction.  `none` models chaining to the previous
handler for an unmapped address. -/
def trapHandlerLoad (st : Registry) (m : Mem) (regs : RegFile)
    (slot pc ilen addr w : Nat) : Option (RegFile × Mem × Nat) :=
  match lookupDevice st addr with
  | none => none
  | some (d, off) =>
      let r := send_message_to_model m ProtocolCommand.CMD_READ
        (d.base_address + off) w 0
      some (regSet regs slot (writeback (regGet regs slot) w r.1), r.2, pc + ilen)

/-- Modelled from the spec: the trap-handler STORE path (spec section
4.E, steps 2, 5 and 6): extract the decoded width's low bytes from the
decoded register slot and send them as a `WRITE` transaction, then
advance the pc. -/
def trapHandlerStore (st : Registry) (m : Mem) (regs : RegFile)
    (slot pc ilen addr w : Nat) : Option (RegFile × Mem × Nat) :=
  match lookupDevice st addr with
  | none => none
  | some (d, off) =>
      let r := send_message_to_model m ProtocolCommand.CMD_WRITE
        (d.base_address + off) w (regGet regs slot % 2 ^ (8 * w))
      some (regs, r.2, pc + ilen)

/-- Post-state of the direct API path for a load, following the spec's
transparency wording (spec sections 4.G and 8, invariant 2): call
`read_register` with the same address and width and apply the native
sub-width writeback to the same destination slot. -/
def directLoadPost (st : Registry) (m : Mem) (regs : RegFile)
    (slot pc ilen addr w : Nat) : Option (RegFile × Mem × Nat) :=
  match read_register st m addr w with
  | none => none
  | some (v, m2) =>
      some (regSet regs slot (writeback (regGet regs slot) w v), m2, pc + ilen)

/-- Post-state of the direct API path for a store, following the spec's
transparency wording: call `write_register` with the value held in the
source slot and the same address and width. -/
def directStorePost (st : Registry) (m : Mem) (regs : RegFile)
    (slot pc ilen addr w : Nat) : Option (RegFile × Mem × Nat) :=
  match write_register st m addr (regGet regs slot) w with
  | none => none
  | some (_, m2) => some (regs, m2, pc + ilen)

/-- WRITE followed by READ of the same address and width through the
public facade (spec section 8, invariant 5 and scenario S1). -/
def roundTrip (st : Registry) (m : Mem) (addr v w : Nat) : Option Nat :=
  match write_register st m addr v w with
  | none => none
  | some r =>
      match read_register st r.2 addr w with
      | none => none
      | some r2 => some r2.1

/-- Pairwise disjointness of the registered device ranges (spec section
8, invariant 1). -/
abbrev DisjointRegistry (st : Registry) : Prop :=
  st.Pairwise (fun a b =>
    rangesIntersect a.base_address a.size b.base_address b.size = false)

/-- Statement that every registered range lies in the 32-bit address
space. -/
abbrev registry32 (st : Registry) : Prop :=
  ∀ d ∈ st, d.base_address < 2 ^ 32 ∧ d.size < 2 ^ 32

/-- A field of a C struct with its size and alignment in bytes. -/
structure CField where
  name : String
  size : Nat
  align : Nat
deriving DecidableEq

/-- Round `off` up to a multiple of `a`. -/
def alignUp (off a : Nat) : Nat := (off + a - 1) / a * a

/-- End offset of the last field of a C struct laid out from `off`. -/
def structEnd (off : Nat) : List CField → Nat
  | [] => off
  | f :: fs => structEnd (alignUp off f.align + f.size) fs

/-- Maximum alignment of the fields. -/
def maxAlign : List CField → Nat
  | [] => 1
  | f :: fs => max f.align (maxAlign fs)

/-- Size of a C struct under the SysV x86-64 layout rules. -/
def structSize (fs : List CField) : Nat := alignUp (structEnd 0 fs) (maxAlign fs)

/-- Byte offset of the named field. -/
def fieldOffset (off : Nat) : List CField → String → Option Nat
  | [], _ => none
  | f :: fs, n =>
      if f.name = n then some (alignUp off f.align)
      else fieldOffset (alignUp off f.align + f.size) fs n

/-- Size in bytes of the named field. -/
def fieldSize (fs : List CField) (n : String) : Option Nat :=
  match fs.find? (fun f => f.name == n) with
  | some f => some f.size
  | none => none

/-- Field layout of `protocol_message_t` (interface_layer.h:48-55): the
`command` and `result` fields are declared with the enum types
`protocol_command_t` and `protocol_result_t`, which are `int`-sized (4
bytes, alignment 4) on the supported x86-64 SysV platform; `device_id`,
`address` and `length` are `uint32_t`; `data` is `uint8_t[256]`. -/
def protocol_message_t : List CField :=
  [⟨"device_id", 4, 4⟩, ⟨"command", 4, 4⟩, ⟨"address", 4, 4⟩,
   ⟨"length", 4, 4⟩, ⟨"result", 4, 4⟩, ⟨"data", 256, 1⟩]

/-- A protocol message value (interface_layer.h:48-55). -/
structure ProtocolMessage where
  device_id : Nat
  command : ProtocolCommand
  address : Nat
  length : Nat
  result : Nat
  data : List Nat
deriving DecidableEq

/-- Little-endian byte list of the `w` low bytes of `v`. -/
def bytesLE (v : Nat) : Nat → List Nat
  | 0 => []
  | Nat.succ w => v % 256 :: bytesLE (v / 256) w

/-- Value of a little-endian byte list. -/
def bytesToNat : List Nat → Nat
  | [] => 0
  | b :: bs => b % 256 + 256 * bytesToNat bs

/-- Pad or truncate a byte list to the 256-byte `data` payload. -/
def padTo256 (d : List Nat) : List Nat :=
  d.take 256 ++ List.replicate (256 - (d.take 256).length) 0

/-- Serialization of a message: each field little-endian, fields in
declaration order with no gap, the enum fields as their 4-byte numeric
values. -/
def serializeMessage (msg : ProtocolMessage) : List Nat :=
  bytesLE msg.device_id 4 ++ bytesLE (commandCode msg.command) 4 ++
  bytesLE msg.address 4 ++ bytesLE msg.length 4 ++ bytesLE msg.result 4 ++
  padTo256 msg.data

/-- Modelled from the spec: the model's handling of one request frame
(spec section 4.A): every request produces exactly one reply frame of
the same shape. -/
def handleRequest (m : Mem) (req : ProtocolMessage) : ProtocolMessage × Mem :=
  let r := send_message_to_model m req.command req.address req.length
    (bytesToNat req.data)
  ({ req with result := 0, data := bytesLE r.1 8 ++ List.replicate 248 0 }, r.2)

/-- Transport failure kinds of the spec (section 4.A). -/
inductive TransportError
  | TRANSPORT_LOST
  | TIMEOUT
  | PROTOCOL
deriving DecidableEq

/-- Modelled from the spec: distinct nonzero numeric codes for the three
transport failure kinds, as surfaced by the `int`-returning explicit
API. -/
def transportErrCode : TransportError → Nat
  | TransportError.TRANSPORT_LOST => 1
  | TransportError.TIMEOUT => 2
  | TransportError.PROTOCOL => 3

/-- Constraint the claim places on any implementation of `read_register`
with the declared `uint32_t` return type (interface_layer.h:75): the
function of the transport outcome must fit in 32 bits, must return the
register value on success (spec section 4.G), and must make every
failure outcome distinguishable from every possible success value. -/
def readRegisterSurfacesErrors (f : Except TransportError Nat → Nat) : Prop :=
  (∀ o, f o < 2 ^ 32) ∧
  (∀ v, v < 2 ^ 32 → f (Except.ok v) = v) ∧
  (∀ e v, v < 2 ^ 32 → f (Except.error e) ≠ f (Except.ok v))

/-- Modelled from the spec: the `int` result of `write_register`
(interface_layer.h:76) as a function of the transport outcome: a
transport failure is returned as its distinct nonzero code, success as
0, an unregistered address as a further nonzero code. -/
def write_register_result (st : Registry) (m : Mem) (address data size : Nat) :
    Option TransportError → Nat
  | some e => transportErrCode e
  | none =>
      match write_register st m address data size with
      | some r => r.1
      | none => 4

/-- A C parameter type (only `uint32_t` occurs in the signatures under
study). -/
inductive CParamType
  | uint32
deriving DecidableEq

/-- Parameter list of the callback type `interrupt_handler_t` as
declared at interface_layer.h:79: `typedef void
(*interrupt_handler_t)(uint32_t interrupt_id)` — a single `uint32_t`
parameter. -/
def interrupt_handler_t_params : List CParamType := [CParamType.uint32]

/-- Parameter list of `dma_interrupt_callback` as defined at main.c:163:
`static void dma_interrupt_callback(uint32_t device_id, uint32_t
interrupt_id)` — two `uint32_t` parameters; main.c:192 and main.c:220
register this function through `register_interrupt_handler`. -/
def dma_interrupt_callback_params : List CParamType :=
  [CParamType.uint32, CParamType.uint32]

/-- Process-wide interface-layer state (spec section 3): the installed
fault handler, the interrupt router, the registry and the per-device
callback slots. -/
structure LayerState where
  initialized : Bool
  handlerInstalled : Bool
  routerActive : Bool
  devices : Registry
  irqHandlers : List Nat
deriving DecidableEq

/-- The torn-down state. -/
def layerReset : LayerState := ⟨false, false, false, [], []⟩

/-- Modelled from the spec: `interface_layer_init`
(interface_layer.h:67); per spec section 4.G it installs the signal
handler and creates the router, returns 0 on success, and re-init after
deinit must work. -/
def interface_layer_init (_s : LayerState) : Nat × LayerState :=
  (0, ⟨true, true, true, [], []⟩)

/-- Modelled from the spec: `interface_layer_deinit`
(interface_layer.h:68); per spec sections 3 and 4.G it tears down all
process-wide state — including any still-registered devices and
callback slots — returns 0, and is idempotent. -/
def interface_layer_deinit (_s : LayerState) : Nat × LayerState :=
  (0, layerReset)

/-- Modelled from the spec: `register_interrupt_handler`
(interface_layer.h:80) installs the per-device callback slot (spec
section 4.F: idempotent re-register replaces). -/
def register_interrupt_handler (s : LayerState) (devId : Nat) :
    Nat × LayerState :=
  (0, { s with irqHandlers := u32 devId :: s.irqHandlers })

/-- One registered demo device, as in spec scenario S1: id 1 at
0x40000000, size 0x1000. -/
def demoRegistry : Registry := [⟨1, 0x40000000, 0x1000⟩]

/-- A model memory whose byte at 0x40000004 is 1, so that an 8-byte read
at 0x40000000 has a nonzero fifth byte. -/
def c1cexMem : Mem := [(0x40000004, 1)]

/-- A layer state with a registered device and an installed callback. -/
def c10State : LayerState := ⟨true, true, true, demoRegistry, [8]⟩

/-- Any value read as `w` little-endian bytes is below `2 ^ (8 * w)`. -/
theorem readBytesLE_lt (m : Mem) : ∀ (w a : Nat), readBytesLE m a w < 2 ^ (8 * w) := by
  intro w
  induction w with
  | zero => intro a; simp [readBytesLE]
  | succ w ih =>
      intro a
      have h1 : readByte m a < 256 := Nat.mod_lt _ (by norm_num)
      have h2 := ih (a + 1)
      have hp : 2 ^ (8 * (w + 1)) = 256 * 2 ^ (8 * w) := by ring
      rw [readBytesLE, hp]
      omega

/-- Writing `w` bytes only depends on `v` modulo `2 ^ (8 * w)`. -/
theorem writeBytesLE_mod : ∀ (w : Nat) (m : Mem) (a v : Nat),
    writeBytesLE m a (v % 2 ^ (8 * w)) w = writeBytesLE m a v w := by
  intro w
  induction w with
  | zero => intro m a v; rfl
  | succ w ih =>
      intro m a v
      have hb : v % 2 ^ (8 * (w + 1)) % 256 = v % 256 := by
        apply Nat.mod_mod_of_dvd
        have : 2 ^ (8 * (w + 1)) = 256 * 2 ^ (8 * w) := by ring
        exact this ▸ Dvd.intro _ rfl
      have hd : v % 2 ^ (8 * (w + 1)) / 256 = v / 256 % 2 ^ (8 * w) := by
        have : 2 ^ (8 * (w + 1)) = 256 * 2 ^ (8 * w) := by ring
        rw [this, Nat.mod_mul_right_div_self]
      rw [writeBytesLE, writeBytesLE, writeByte, writeByte, hb, hd, ih]

/-- Bytes below the written window are untouched. -/
theorem readByte_writeBytesLE : ∀ (w : Nat) (m : Mem) (b v a : Nat), a < b →
    readByte (writeBytesLE m b v w) a = readByte m a := by
  intro w
  induction w with
  | zero => intro m b v a _; rfl
  | succ w ih =>
      intro m b v a h
      rw [writeBytesLE, ih _ _ _ _ (Nat.lt_succ_of_lt h)]
      have hne : (a == b) = false := beq_eq_false_iff_ne.mpr (Nat.ne_of_lt h)
      simp [readByte, writeByte, List.lookup_cons, hne]

/-- Reading back `w` bytes just written yields `v` modulo `2 ^ (8 * w)`. -/
theorem readBytesLE_writeBytesLE : ∀ (w : Nat) (m : Mem) (a v : Nat),
    readBytesLE (writeBytesLE m a v w) a w = v % 2 ^ (8 * w) := by
  intro w
  induction w with
  | zero => intro m a v; simp [readBytesLE, writeBytesLE, Nat.mod_one]
  | succ w ih =>
      intro m a v
      rw [writeBytesLE, readBytesLE]
      rw [readByte_writeBytesLE _ _ _ _ _ (Nat.lt_succ_self a)]
      have h1 : readByte (writeByte m a v) a = v % 256 := by
        simp [readByte, writeByte, List.lookup_cons, Nat.mod_mod_of_dvd]
      rw [h1, ih]
      have : 2 ^ (8 * (w + 1)) = 256 * 2 ^ (8 * w) := by ring
      rw [this, Nat.mod_mul]

/-- A little-endian byte list of width `w` has length `w`. -/
theorem bytesLE_length : ∀ (w v : Nat), (bytesLE v w).length = w := by
  intro w
  induction w with
  | zero => intro v; rfl
  | succ w ih => intro v; simp [bytesLE, ih]

/-- The padded data payload always has length 256. -/
theorem padTo256_length (d : List Nat) : (padTo256 d).length = 256 := by
  simp [padTo256]

/-- C1 (counterexample): the claim fails at width 8.  With device 1
registered at 0x40000000 and a model value whose fifth byte is nonzero,
the fault path writes the full 8-byte value into the destination
register, while the direct path goes through `read_register`, whose
`uint32_t` return type (interface_layer.h:75) keeps only the low 4
bytes, so the two post-states differ. -/
theorem c1_counterexample :
    trapHandlerLoad demoRegistry c1cexMem [0, 0] 0 0 2 0x40000000 8 ≠
      directLoadPost demoRegistry c1cexMem [0, 0] 0 0 2 0x40000000 8 := by
  decide

/-- C1 (amended): for every registered address and every access width in
{1, 2, 4}, the fault-interception path produces exactly the post-state
(register file with sub-width writeback, model state, resume pc) of the
direct `read_register` / `write_register` path with the same address,
width and value.  (For width 8 the `uint32_t`-typed direct API truncates
to the low 4 bytes, so only widths 1, 2 and 4 can be byte-identical.) -/
theorem c1_transparency (st : Registry) (m : Mem) (regs : RegFile)
    (slot pc ilen addr w : Nat) (hw : w = 1 ∨ w = 2 ∨ w = 4) (ha : addr < 2 ^ 32) :
    trapHandlerLoad st m regs slot pc ilen addr w =
      directLoadPost st m regs slot pc ilen addr w ∧
    trapHandlerStore st m regs slot pc ilen addr w =
      directStorePost st m regs slot pc ilen addr w := by
  have ha32 : u32 addr = addr := Nat.mod_eq_of_lt ha
  have hw32 : u32 w = w := by rcases hw with h | h | h <;> subst h <;> rfl
  have hle : 8 * w ≤ 32 := by rcases hw with h | h | h <;> subst h <;> norm_num
  have hdvd : 2 ^ (8 * w) ∣ 2 ^ 32 := pow_dvd_pow 2 hle
  cases hld : lookupDevice st addr with
  | none =>
      constructor <;>
        simp only [trapHandlerLoad, trapHandlerStore, directLoadPost,
          directStorePost, read_register, write_register, ha32, hld]
  | some p =>
      obtain ⟨d, off⟩ := p
      constructor
      · simp only [trapHandlerLoad, directLoadPost, read_register, ha32, hld,
          send_message_to_model, hw32]
        have hvlt : readBytesLE m (d.base_address + off) w < 2 ^ 32 :=
          lt_of_lt_of_le (readBytesLE_lt m w _)
            (Nat.pow_le_pow_right (by norm_num) hle)
        rw [u32, Nat.mod_eq_of_lt hvlt]
      · simp only [trapHandlerStore, directStorePost, write_register, ha32, hld,
          send_message_to_model, hw32]
        have hmem : writeBytesLE m (d.base_address + off)
              (regGet regs slot % 2 ^ (8 * w)) w =
            writeBytesLE m (d.base_address + off) (u32 (regGet regs slot)) w := by
          rw [writeBytesLE_mod]
          rw [← writeBytesLE_mod w _ _ (u32 (regGet regs slot))]
          rw [u32, Nat.mod_mod_of_dvd _ hdvd, writeBytesLE_mod]
        rw [hmem]

/-- C1 (witness): the amended transparency theorem applied to spec
scenario S1's device at width 4. -/
theorem c1_transparency_witness :
    ((4 : Nat) = 1 ∨ (4 : Nat) = 2 ∨ (4 : Nat) = 4) ∧ 0x40000000 < 2 ^ 32 ∧
    (trapHandlerLoad demoRegistry [] [0x1111, 0] 0 100 3 0x40000000 4 =
        directLoadPost demoRegistry [] [0x1111, 0] 0 100 3 0x40000000 4 ∧
      trapHandlerStore demoRegistry [] [0x1111, 0] 0 100 3 0x40000000 4 =
        directStorePost demoRegistry [] [0x1111, 0] 0 100 3 0x40000000 4) :=
  ⟨by decide, by decide,
    c1_transparency demoRegistry [] [0x1111, 0] 0 100 3 0x40000000 4
      (by decide) (by decide)⟩

/-- C2: against the echo model, `write_register(addr, v, w)` followed by
`read_register(addr, w)` on a registered address returns exactly `v`
masked to `w` bytes, for every width in {1, 2, 4, 8} and every value
representable in the `uint32_t` data parameter. -/
theorem c2_roundtrip (st : Registry) (m : Mem) (addr v w : Nat)
    (hw : w = 1 ∨ w = 2 ∨ w = 4 ∨ w = 8) (hv : v < 2 ^ 32) (ha : addr < 2 ^ 32)
    (hl : lookupDevice st addr ≠ none) :
    roundTrip st m addr v w = some (v % 2 ^ (8 * w)) := by
  have ha32 : u32 addr = addr := Nat.mod_eq_of_lt ha
  have hv32 : u32 v = v := Nat.mod_eq_of_lt hv
  have hw32 : u32 w = w := by rcases hw with h | h | h | h <;> subst h <;> rfl
  cases hld : lookupDevice st addr with
  | none => exact absurd hld hl
  | some p =>
      obtain ⟨d, off⟩ := p
      simp only [roundTrip, write_register, read_register, ha32, hld,
        send_message_to_model, hv32, hw32]
      rw [readBytesLE_writeBytesLE]
      have hlt : v % 2 ^ (8 * w) < 2 ^ 32 := lt_of_le_of_lt (Nat.mod_le _ _) hv
      rw [u32, Nat.mod_eq_of_lt hlt]

/-- C2 (witness): the round trip of spec scenario S1:
`write_register(0x40000000, 0xAABBCCDD, 4)` then
`read_register(0x40000000, 4)` returns `0xAABBCCDD`. -/
theorem c2_roundtrip_witness :
    ((4 : Nat) = 1 ∨ (4 : Nat) = 2 ∨ (4 : Nat) = 4 ∨ (4 : Nat) = 8) ∧
    0xAABBCCDD < 2 ^ 32 ∧ 0x40000000 < 2 ^ 32 ∧
    lookupDevice demoRegistry 0x40000000 ≠ none ∧
    roundTrip demoRegistry [] 0x40000000 0xAABBCCDD 4 =
      some (0xAABBCCDD % 2 ^ (8 * 4)) :=
  ⟨by decide, by decide, by decide, by decide,
    c2_roundtrip demoRegistry [] 0x40000000 0xAABBCCDD 4
      (by decide) (by decide) (by decide) (by decide)⟩

/-- C3: starting from a registry with pairwise-disjoint ranges, a
registration request whose (truncated) range intersects a registered
range fails with `OVERLAP` and leaves the registry unchanged; every
outcome of `register_device` preserves pairwise disjointness; every
failure leaves the registry unchanged; and `unregister_device` preserves
disjointness as well, so disjointness holds at every moment. -/
theorem c3_disjointness (st : Registry) (id base size : Nat)
    (hdis : DisjointRegistry st) :
    (st.any (fun d => rangesIntersect (u32 base) (u32 size) d.base_address d.size) = true →
      (register_device st id base size).1 = some RegError.OVERLAP ∧
      (register_device st id base size).2 = st) ∧
    DisjointRegistry (register_device st id base size).2 ∧
    (∀ e, (register_device st id base size).1 = some e →
      (register_device st id base size).2 = st) ∧
    (∀ i, DisjointRegistry (unregister_device st i).2) := by
  refine ⟨?_, ?_, ?_, ?_⟩
  · intro hov
    simp [register_device, hov]
  · cases hany : st.any (fun d => rangesIntersect (u32 base) (u32 size) d.base_address d.size) with
    | true => simpa [register_device, hany] using hdis
    | false =>
        by_cases halign : u32 base % pageSize = 0 ∧ u32 size % pageSize = 0
        · simp only [register_device, hany, Bool.false_eq_true, if_false,
            if_pos halign]
          refine List.pairwise_cons.mpr ⟨?_, hdis⟩
          intro d hd
          simpa using List.any_eq_false.mp hany d hd
        · simpa [register_device, hany, halign] using hdis
  · intro e
    cases hany : st.any (fun d => rangesIntersect (u32 base) (u32 size) d.base_address d.size) with
    | true => intro _; simp [register_device, hany]
    | false =>
        by_cases halign : u32 base % pageSize = 0 ∧ u32 size % pageSize = 0
        · intro h; simp [register_device, hany, halign] at h
        · intro _; simp [register_device, hany, halign]
  · intro i
    unfold unregister_device
    by_cases h : st.any (fun d => d.device_id == u32 i) = true
    · simp only [h, if_true]
      exact List.Pairwise.sublist (List.filter_sublist st) hdis
    · simpa [h] using hdis

/-- C3 (witness): spec scenario S4: with device 1 registered at
0x40000000 size 0x1000, registering device 2 at 0x40000800 size 0x1000
hits the overlap case, fails with `OVERLAP`, and leaves the registry —
hence the first device — untouched. -/
theorem c3_disjointness_witness :
    DisjointRegistry demoRegistry ∧
    ((demoRegistry.any (fun d =>
        rangesIntersect (u32 0x40000800) (u32 0x1000) d.base_address d.size) = true →
      (register_device demoRegistry 2 0x40000800 0x1000).1 = some RegError.OVERLAP ∧
      (register_device demoRegistry 2 0x40000800 0x1000).2 = demoRegistry) ∧
    DisjointRegistry (register_device demoRegistry 2 0x40000800 0x1000).2 ∧
    (∀ e, (register_device demoRegistry 2 0x40000800 0x1000).1 = some e →
      (register_device demoRegistry 2 0x40000800 0x1000).2 = demoRegistry) ∧
    (∀ i, DisjointRegistry (unregister_device demoRegistry i).2)) :=
  ⟨by decide, c3_disjointness demoRegistry 2 0x40000800 0x1000 (by decide)⟩

/-- C4: the callback type `interrupt_handler_t` declared at
interface_layer.h:79 takes a single `uint32_t` parameter, while the
callback `dma_interrupt_callback` that main.c:192 registers takes two
`uint32_t` parameters `(device_id, interrupt_id)`; the declared handler
type cannot receive both arguments the claim (and the repository's own
test) requires. -/
theorem c4_callback_type_mismatch :
    interrupt_handler_t_params ≠ dma_interrupt_callback_params := by
  decide

/-- C5 (counterexample): under the SysV x86-64 layout of the struct
declared at interface_layer.h:48-55 the message record is 276 bytes, not
277, and its `command` field is a 4-byte enum, not a `u8`. -/
theorem c5_counterexample :
    structSize protocol_message_t = 276 ∧
    ¬ structSize protocol_message_t = 277 ∧
    fieldSize protocol_message_t "command" = some 4 ∧
    ¬ fieldSize protocol_message_t "command" = some 1 := by
  decide

/-- C5 (amended): every protocol message occupies the fixed 276-byte
record `u32 device_id || u32(enum) command || u32 address || u32 length
|| u32(enum) result || u8 data[256]`, little-endian, with contiguous
field offsets 0, 4, 8, 12, 16, 20 (no padding), and every request yields
exactly one reply of the same 276-byte shape. -/
theorem c5_wire_format (m : Mem) (req : ProtocolMessage) :
    structSize protocol_message_t = 276 ∧
    fieldOffset 0 protocol_message_t "device_id" = some 0 ∧
    fieldOffset 0 protocol_message_t "command" = some 4 ∧
    fieldOffset 0 protocol_message_t "address" = some 8 ∧
    fieldOffset 0 protocol_message_t "length" = some 12 ∧
    fieldOffset 0 protocol_message_t "result" = some 16 ∧
    fieldOffset 0 protocol_message_t "data" = some 20 ∧
    (serializeMessage req).length = structSize protocol_message_t ∧
    (serializeMessage (handleRequest m req).1).length =
      structSize protocol_message_t := by
  have h276 : structSize protocol_message_t = 276 := by decide
  refine ⟨h276, by decide, by decide, by decide, by decide, by decide,
    by decide, ?_, ?_⟩ <;>
    simp [h276, serializeMessage, bytesLE_length, padTo256_length]

/-- C6 (counterexample): no function of the transport outcome with the
`uint32_t` return type declared for `read_register`
(interface_layer.h:75) can both return the register value on success and
keep every transport failure distinguishable from every possible success
value: the error result always collides with some data value. -/
theorem c6_counterexample :
    ¬ ∃ f : Except TransportError Nat → Nat, readRegisterSurfacesErrors f := by
  rintro ⟨f, hcod, hok, hdist⟩
  have hv := hcod (Except.error TransportError.TIMEOUT)
  have heq := hok _ hv
  exact hdist TransportError.TIMEOUT _ hv heq.symm

/-- C6 (amended): on the explicit path, `write_register` — whose `int`
result has room for error codes — surfaces each transport failure
(`TRANSPORT_LOST`, `TIMEOUT`, `PROTOCOL`) as a distinct nonzero returned
code and returns 0 on success, so its failures are distinguishable
errors, returned rather than fatal; `read_register`'s `uint32_t` return
cannot distinguish errors from data. -/
theorem c6_write_error_codes (st : Registry) (m : Mem) (a v w : Nat)
    (hl : lookupDevice st (u32 a) ≠ none) :
    (∀ e, write_register_result st m a v w (some e) ≠ 0) ∧
    (∀ e1 e2 : TransportError, transportErrCode e1 = transportErrCode e2 → e1 = e2) ∧
    write_register_result st m a v w none = 0 := by
  refine ⟨?_, ?_, ?_⟩
  · intro e; cases e <;> simp [write_register_result, transportErrCode]
  · intro e1 e2 h; cases e1 <;> cases e2 <;> simp_all [transportErrCode]
  · cases hld : lookupDevice st (u32 a) with
    | none => exact absurd hld hl
    | some p =>
        obtain ⟨d, off⟩ := p
        simp [write_register_result, write_register, hld, send_message_to_model]

/-- C6 (witness): the amended error-surfacing theorem applied to a write
to the registered demo device. -/
theorem c6_write_error_codes_witness :
    lookupDevice demoRegistry (u32 0x40000000) ≠ none ∧
    ((∀ e, write_register_result demoRegistry [] 0x40000000 5 4 (some e) ≠ 0) ∧
    (∀ e1 e2 : TransportError, transportErrCode e1 = transportErrCode e2 → e1 = e2) ∧
    write_register_result demoRegistry [] 0x40000000 5 4 none = 0) :=
  ⟨by decide, c6_write_error_codes demoRegistry [] 0x40000000 5 4 (by decide)⟩

/-- C7: from any process state, `init; deinit; init; deinit` returns 0
at every step, and two consecutive `deinit` calls both return 0:
re-initialization after teardown is permitted and works. -/
theorem c7_lifecycle (s : LayerState) :
    (interface_layer_init s).1 = 0 ∧
    (interface_layer_deinit (interface_layer_init s).2).1 = 0 ∧
    (interface_layer_init (interface_layer_deinit (interface_layer_init s).2).2).1 = 0 ∧
    (interface_layer_deinit
      (interface_layer_init (interface_layer_deinit (interface_layer_init s).2).2).2).1 = 0 ∧
    (interface_layer_deinit s).1 = 0 ∧
    (interface_layer_deinit (interface_layer_deinit s).2).1 = 0 :=
  ⟨rfl, rfl, rfl, rfl, rfl, rfl⟩

/-- C8 (counterexample): `register_device`'s parameters are `uint32_t`
(interface_layer.h:71), so a request for the 64-bit base
`2^32 + 0x40000000` is truncated: registration succeeds but the stored
window is at 0x40000000, and looking up the requested 64-bit address
finds nothing — MMIO windows above the 32-bit space cannot be
addressed. -/
theorem c8_counterexample :
    (register_device [] 1 (2 ^ 32 + 0x40000000) 0x1000).1 = none ∧
    (register_device [] 1 (2 ^ 32 + 0x40000000) 0x1000).2 =
      [⟨1, 0x40000000, 0x1000⟩] ∧
    lookupDevice (register_device [] 1 (2 ^ 32 + 0x40000000) 0x1000).2
      (2 ^ 32 + 0x40000000) = none := by
  decide

/-- C8 (amended): a device's base address and size are 32-bit
(`uint32_t` per interface_layer.h:58-64 and 71): `register_device`
truncates its arguments modulo `2^32`, every registered range lies in
the 32-bit address space, and a request with 32-bit-representable base
and size is stored exactly. -/
theorem c8_range32 (st : Registry) (id base size : Nat) (h : registry32 st) :
    registry32 (register_device st id base size).2 ∧
    ((register_device st id base size).1 = none →
      (register_device st id base size).2 =
        ⟨u32 id, u32 base, u32 size⟩ :: st) := by
  constructor
  · cases hany : st.any (fun d => rangesIntersect (u32 base) (u32 size) d.base_address d.size) with
    | true => simpa [register_device, hany] using h
    | false =>
        by_cases halign : u32 base % pageSize = 0 ∧ u32 size % pageSize = 0
        · simp only [register_device, hany, Bool.false_eq_true, if_false,
            if_pos halign]
          intro d hd
          rcases List.mem_cons.mp hd with hd | hd
          · subst hd
            exact ⟨Nat.mod_lt _ (by norm_num), Nat.mod_lt _ (by norm_num)⟩
          · exact h d hd
        · simpa [register_device, hany, halign] using h
  · intro hnone
    cases hany : st.any (fun d => rangesIntersect (u32 base) (u32 size) d.base_address d.size) with
    | true => simp [register_device, hany] at hnone
    | false =>
        by_cases halign : u32 base % pageSize = 0 ∧ u32 size % pageSize = 0
        · simp [register_device, hany, halign]
        · simp [register_device, hany, halign] at hnone

/-- C8 (witness): the amended 32-bit-range theorem applied to a fresh
registration next to the demo device. -/
theorem c8_range32_witness :
    registry32 demoRegistry ∧
    (registry32 (register_device demoRegistry 2 0x50000000 0x1000).2 ∧
    ((register_device demoRegistry 2 0x50000000 0x1000).1 = none →
      (register_device demoRegistry 2 0x50000000 0x1000).2 =
        ⟨u32 2, u32 0x50000000, u32 0x1000⟩ :: demoRegistry)) :=
  ⟨by decide, c8_range32 demoRegistry 2 0x50000000 0x1000 (by decide)⟩

/-- C9: `register_device` may be called twice with the same device id:
when both (truncated) ranges are page-aligned, do not intersect any
registered range, and do not intersect each other, both calls succeed —
a duplicate id is not by itself a registration error. -/
theorem c9_duplicate_id (st : Registry) (id b1 s1 b2 s2 : Nat)
    (h1 : st.any (fun d => rangesIntersect (u32 b1) (u32 s1) d.base_address d.size) = false)
    (h2 : u32 b1 % pageSize = 0) (h3 : u32 s1 % pageSize = 0)
    (h4 : st.any (fun d => rangesIntersect (u32 b2) (u32 s2) d.base_address d.size) = false)
    (h5 : rangesIntersect (u32 b2) (u32 s2) (u32 b1) (u32 s1) = false)
    (h6 : u32 b2 % pageSize = 0) (h7 : u32 s2 % pageSize = 0) :
    (register_device st id b1 s1).1 = none ∧
    (register_device (register_device st id b1 s1).2 id b2 s2).1 = none := by
  constructor
  · simp [register_device, h1, h2, h3]
  · simp [register_device, h1, h2, h3, h4, h5, h6, h7, List.any_cons]

/-- C9 (witness): the two registrations of main.c:255-262 — id 1 at
0x20000000 size 0x10000, then id 1 again at 0x40000000 size 0x10000 —
both succeed. -/
theorem c9_duplicate_id_witness :
    (([] : Registry).any (fun d =>
      rangesIntersect (u32 0x20000000) (u32 0x10000) d.base_address d.size) = false) ∧
    u32 0x20000000 % pageSize = 0 ∧ u32 0x10000 % pageSize = 0 ∧
    (([] : Registry).any (fun d =>
      rangesIntersect (u32 0x40000000) (u32 0x10000) d.base_address d.size) = false) ∧
    rangesIntersect (u32 0x40000000) (u32 0x10000) (u32 0x20000000) (u32 0x10000) = false ∧
    u32 0x40000000 % pageSize = 0 ∧ u32 0x10000 % pageSize = 0 ∧
    ((register_device [] 1 0x20000000 0x10000).1 = none ∧
      (register_device (register_device [] 1 0x20000000 0x10000).2
        1 0x40000000 0x10000).1 = none) :=
  ⟨by decide, by decide, by decide, by decide, by decide, by decide, by decide,
    c9_duplicate_id [] 1 0x20000000 0x10000 0x40000000 0x10000
      (by decide) (by decide) (by decide) (by decide) (by decide)
      (by decide) (by decide)⟩

/-- C10: `interface_layer_deinit` succeeds (returns 0) even while
devices are still registered and an interrupt callback is still
installed, and the teardown releases the remaining devices, callback
slots and the fault handler. -/
theorem c10_deinit_teardown (s : LayerState) (hdev : s.devices ≠ [])
    (hirq : s.irqHandlers ≠ []) :
    (interface_layer_deinit s).1 = 0 ∧
    (interface_layer_deinit s).2.devices = [] ∧
    (interface_layer_deinit s).2.irqHandlers = [] ∧
    (interface_layer_deinit s).2.handlerInstalled = false :=
  ⟨rfl, rfl, rfl, rfl⟩

/-- C10 (witness): teardown of a state holding the demo device and a
callback on device 8, with no prior `unregister_device`. -/
theorem c10_deinit_teardown_witness :
    c10State.devices ≠ [] ∧ c10State.irqHandlers ≠ [] ∧
    ((interface_layer_deinit c10State).1 = 0 ∧
      (interface_layer_deinit c10State).2.devices = [] ∧
      (interface_layer_deinit c10State).2.irqHandlers = [] ∧
      (interface_layer_deinit c10State).2.handlerInstalled = false) :=
  ⟨by decide, by decide, c10_deinit_teardown c10State (by decide) (by decide)⟩

end DrvIntf
